import Mathlib

/-!
Shallow embedding of the Vouchsafe Node client (vouchsafe/vouchsafe-node).

The repository contains two variants of the same client:
* an orval-based client (`getAccessToken`, `withErrorHandling`, endpoint
  methods built as `withErrorHandling ((opts) => endpoint(args, opts))`), and
* an openapi-generator-based client (`getAccessToken` wired through a
  `Configuration.accessToken` callback, `withErrorHandling` dispatching on
  thrown `ResponseError`s).

Both are embedded below as pure state-passing functions.  The external world
(the clock, the authenticate wire responses and the endpoint wire responses)
is an explicit environment; calls are counted so that the retry policy can be
stated exactly.
-/

deriving instance DecidableEq for Except

namespace Vouchsafe

/-- Credentials supplied at construction: the client_id / client_secret pair. -/
structure Creds where
  client_id : String
  client_secret : String
  deriving DecidableEq

/-- The per-instance token cache: the private `token` and `tokenExpiry`
fields of `VouchsafeClient`.  A `Date` is represented by its epoch value in
milliseconds. -/
structure ClientState where
  token : Option String
  tokenExpiry : Option Int
  deriving DecidableEq

/-- The state of a fresh client, and the state after the 401 handler clears
`this.token` and `this.tokenExpiry`. -/
def emptyState : ClientState := ⟨none, none⟩

/-- The 5-minute refresh buffer, in milliseconds: `5 * 60 * 1000`. -/
def bufferMs : Int := 5 * 60 * 1000

/-- JavaScript truthiness of an optional string: `undefined` and the empty
string are falsy. -/
def strTruthy : Option String → Bool
  | none => false
  | some s => !s.isEmpty

/-- The cache guard `this.token && this.tokenExpiry && now.getTime() <
this.tokenExpiry.getTime() - bufferMs`. -/
def tokenIsValid (st : ClientState) (now : Int) : Bool :=
  match st.tokenExpiry with
  | none => false
  | some e => strTruthy st.token && decide (now < e - bufferMs)

/-- The body of an authenticate response (`response.data`): either field may
be absent on the wire. -/
structure AuthData where
  access_token : Option String
  expires_at : Option String
  deriving DecidableEq

/-- An orval response: a status code and a data payload. -/
structure ApiResponse (D : Type) where
  status : Nat
  data : D
  deriving DecidableEq

/-- The response body stored inside a `VouchsafeApiError`, tagged with its
provenance (authenticate response vs endpoint response). -/
inductive RespBody (D : Type) where
  | auth : AuthData → RespBody D
  | call : D → RespBody D
  deriving DecidableEq

/-- The `VouchsafeApiError` class: statusCode, responseBody, message. -/
structure VouchsafeApiError (D : Type) where
  statusCode : Nat
  responseBody : RespBody D
  message : String
  deriving DecidableEq

/-- Outcome of one `getAccessToken` invocation of the orval client: the
returned token or thrown error, the updated instance state, how many
authenticate network calls were made, and the request bodies sent to the
authenticate endpoint. -/
structure AuthOutcome (D : Type) where
  result : Except (VouchsafeApiError D) String
  state : ClientState
  authCalls : Nat
  authBodies : List Creds
  deriving DecidableEq

/-- The orval client's `getAccessToken`: return the cached token while it is
still valid with a 5-minute buffer; otherwise authenticate once with the
stored credentials, insisting on a 201 status and on truthy `access_token`
and `expires_at` fields, and cache the new token and parsed expiry. -/
def getAccessToken {D : Type} (parseDate : String → Int) (creds : Creds)
    (now : Int) (authResp : ApiResponse AuthData) (st : ClientState) :
    AuthOutcome D :=
  if tokenIsValid st now then
    { result := .ok (st.token.getD ""), state := st, authCalls := 0, authBodies := [] }
  else if authResp.status ≠ 201 then
    { result := .error ⟨authResp.status, .auth authResp.data, "Authentication failed"⟩,
      state := st, authCalls := 1, authBodies := [creds] }
  else if !(strTruthy authResp.data.access_token) || !(strTruthy authResp.data.expires_at) then
    { result := .error ⟨201, .auth authResp.data,
        "Authentication response missing token or expiry"⟩,
      state := st, authCalls := 1, authBodies := [creds] }
  else
    { result := .ok (authResp.data.access_token.getD ""),
      state := { token := some (authResp.data.access_token.getD ""),
                 tokenExpiry := some (parseDate (authResp.data.expires_at.getD "")) },
      authCalls := 1, authBodies := [creds] }

/-- The environment of one run of the orval client: the date parser, the
constructor credentials, the clock (indexed by attempt count), the
authenticate wire responses (indexed by authenticate-call count), the
endpoint wire responses (indexed by endpoint-invocation count) and the
optional `message` field of an endpoint payload. -/
structure Env (D : Type) where
  parseDate : String → Int
  creds : Creds
  times : Nat → Int
  auth : Nat → ApiResponse AuthData
  call : Nat → ApiResponse D
  msg : D → Option String

/-- Running call counters: attempts made, authenticate calls made, endpoint
invocations made. -/
structure RC where
  attempts : Nat
  auths : Nat
  fns : Nat
  deriving DecidableEq

/-- Outcome of one `attempt` of the orval client's `withErrorHandling`. -/
structure AttemptOut (D : Type) where
  result : Except (VouchsafeApiError D) D
  state : ClientState
  rc : RC
  headers : List String
  deriving DecidableEq

/-- Unwrapping of an endpoint response inside `attempt`: 200/201 yield the
payload, anything else throws a `VouchsafeApiError` whose message is the
body's `message` field when present, else the generic text. -/
def classify {D : Type} (msg : D → Option String) (resp : ApiResponse D) :
    Except (VouchsafeApiError D) D :=
  if resp.status = 200 ∨ resp.status = 201 then .ok resp.data
  else .error ⟨resp.status, .call resp.data,
    (msg resp.data).getD ("Request failed with status " ++ toString resp.status)⟩

/-- One `attempt`: build auth headers via `getAccessToken` (recording the
Bearer token attached), invoke the wrapped call, unwrap the response. -/
def attemptRun {D : Type} (env : Env D) (st : ClientState) (rc : RC) :
    AttemptOut D :=
  let g : AuthOutcome D :=
    getAccessToken env.parseDate env.creds (env.times rc.attempts) (env.auth rc.auths) st
  match g.result with
  | .error e =>
      ⟨.error e, g.state, ⟨rc.attempts + 1, rc.auths + g.authCalls, rc.fns⟩, []⟩
  | .ok tok =>
      ⟨classify env.msg (env.call rc.fns), g.state,
        ⟨rc.attempts + 1, rc.auths + g.authCalls, rc.fns + 1⟩, [tok]⟩

/-- Outcome of one `withErrorHandling` execution: the caller-visible result,
the final instance state, the final counters, how many times the cached
token was invalidated, and every Bearer token attached to an Authorization
header, in order. -/
structure ExecOut (D : Type) where
  result : Except (VouchsafeApiError D) D
  state : ClientState
  rc : RC
  invalidations : Nat
  headers : List String
  deriving DecidableEq

/-- The orval client's `withErrorHandling`: try one attempt; if it threw a
`VouchsafeApiError` with statusCode 401, clear the cached token and expiry
and run exactly one more attempt, whose outcome is returned as is; any other
error is rethrown untouched. -/
def withErrorHandling {D : Type} (env : Env D) (st : ClientState) (rc : RC) :
    ExecOut D :=
  let a1 := attemptRun env st rc
  match a1.result with
  | .ok _ => ⟨a1.result, a1.state, a1.rc, 0, a1.headers⟩
  | .error e =>
      if e.statusCode = 401 then
        let a2 := attemptRun env emptyState a1.rc
        ⟨a2.result, a2.state, a2.rc, 1, a1.headers ++ a2.headers⟩
      else
        ⟨.error e, a1.state, a1.rc, 0, a1.headers⟩

/-- Decidable success test on an `Except` result. -/
def exceptIsOk {E A : Type} : Except E A → Bool
  | .ok _ => true
  | .error _ => false

/-- n successive public calls through `withErrorHandling`, threading the
instance state and the call counters. -/
def runMany {D : Type} (env : Env D) : Nat → ClientState → RC →
    List (Except (VouchsafeApiError D) D) × ClientState × RC
  | 0, st, rc => ([], st, rc)
  | n + 1, st, rc =>
      let o := withErrorHandling env st rc
      let r := runMany env n o.state o.rc
      (o.result :: r.1, r.2.1, r.2.2)

/-! The openapi-generator client. -/

/-- A parsed JSON error body in the openapi-generator client: its optional
`message` field plus its remaining keys, so that the empty object is
distinguishable from larger bodies. -/
structure ErrBody where
  message : Option String
  extraKeys : List String
  deriving DecidableEq

/-- The empty object substituted when reading the error body fails:
`err.response.json().catch(() => (\x7b\x7d))`. -/
def emptyErrBody : ErrBody := ⟨none, []⟩

/-- Values thrown across the openapi-generator client's call stack: a
fetch-layer `ResponseError` (carrying the status, the statusText, and the
result of reading the body as JSON), a `VouchsafeApiError`, or any other
error. -/
inductive Err2 (D : Type) where
  | responseError (status : Nat) (statusText : String) (body : Except Unit ErrBody)
  | api (statusCode : Nat) (responseBody : ErrBody) (message : String)
  | other (tag : String)
  deriving DecidableEq

/-- The authenticate response of the generated `AuthenticationApi`: typed
with both fields present. -/
structure AuthData2 where
  access_token : String
  expires_at : String
  deriving DecidableEq

/-- Environment of one run of the openapi-generator client. -/
structure Env2 (D : Type) where
  parseDate : String → Int
  times : Nat → Int
  auth : Nat → Except (Err2 D) AuthData2
  calls : Nat → Except (Err2 D) D

/-- Running counters for the openapi-generator client: authenticate calls
made and endpoint invocations made. -/
structure RC2 where
  auths : Nat
  fns : Nat
  deriving DecidableEq

/-- The openapi-generator client's `getAccessToken`: same cache guard, but
no status check and no missing-field check — the generated API throws on
error statuses and the response is assumed fully populated. -/
def getAccessToken2 {D : Type} (env : Env2 D) (st : ClientState) (rc : RC2) :
    Except (Err2 D) String × ClientState × RC2 :=
  if tokenIsValid st (env.times rc.auths) then
    (.ok (st.token.getD ""), st, rc)
  else
    match env.auth rc.auths with
    | .error e => (.error e, st, { rc with auths := rc.auths + 1 })
    | .ok d =>
        (.ok d.access_token,
         { token := some d.access_token, tokenExpiry := some (env.parseDate d.expires_at) },
         { rc with auths := rc.auths + 1 })

/-- A thunk in the openapi-generator client: an effectful computation over
the instance state and the counters that yields a payload or throws. -/
def Thunk2 (D : Type) :=
  Env2 D → ClientState → RC2 → Except (Err2 D) D × ClientState × RC2

/-- A generated endpoint call: the configuration's accessToken callback runs
`getAccessToken` to build the Authorization header, then the request fires;
non-2xx statuses surface as thrown `ResponseError`s from the wire. -/
def baseCall2 {D : Type} : Thunk2 D := fun env st rc =>
  match getAccessToken2 env st rc with
  | (.error e, st1, rc1) => (.error e, st1, rc1)
  | (.ok _, st1, rc1) => (env.calls rc1.fns, st1, { rc1 with fns := rc1.fns + 1 })

/-- The openapi-generator client's `withErrorHandling`: run the thunk; on a
thrown `ResponseError` with status 401, clear the cached token and expiry,
re-run `getAccessToken`, and invoke the thunk once more, propagating its
outcome raw; on any other `ResponseError`, read the body (substituting the
empty object when the read fails) and throw a `VouchsafeApiError` whose
message is the body's `message` field when present, else the statusText;
rethrow every other error untouched. -/
def withErrorHandling2 {D : Type} (thunk : Thunk2 D) : Thunk2 D := fun env st rc =>
  match thunk env st rc with
  | (.ok d, st1, rc1) => (.ok d, st1, rc1)
  | (.error e, st1, rc1) =>
      match e with
      | .responseError status stext body =>
          if status = 401 then
            match getAccessToken2 env emptyState rc1 with
            | (.error ae, st2, rc2) => (.error ae, st2, rc2)
            | (.ok _, st2, rc2) => thunk env st2 rc2
          else
            let b := match body with | .ok b => b | .error _ => emptyErrBody
            (.error (.api status b (b.message.getD stext)), st1, rc1)
      | _ => (.error e, st1, rc1)

/-- The openapi-generator client's `getVerification` (representative of the
singly wrapped endpoints): `withErrorHandling` applied once. -/
def getVerification2 {D : Type} : Thunk2 D := withErrorHandling2 baseCall2

/-- The openapi-generator client's `listFlows`: `withErrorHandling` applied
to an already `withErrorHandling`-wrapped call. -/
def listFlows2 {D : Type} : Thunk2 D := withErrorHandling2 (withErrorHandling2 baseCall2)

/-- The openapi-generator client's `getFlow`: also doubly wrapped. -/
def getFlow2 {D : Type} : Thunk2 D := withErrorHandling2 (withErrorHandling2 baseCall2)

/-! Concrete sample runs. -/

/-- Sample constructor credentials. -/
def sampleCreds : Creds := ⟨"id", "secret"⟩

/-- A run whose wrapped call answers 401 and whose authenticate endpoint then
answers 500: the re-acquisition during the retry fails. -/
def envRetryAuthFail : Env Nat where
  parseDate := fun _ => 0
  creds := sampleCreds
  times := fun _ => 0
  auth := fun _ => ⟨500, ⟨none, none⟩⟩
  call := fun _ => ⟨401, 0⟩
  msg := fun _ => none

/-- A run whose wrapped call answers 401 once and then 200, with a healthy
authenticate endpoint. -/
def envRetrySuccess : Env Nat where
  parseDate := fun _ => 2000000
  creds := sampleCreds
  times := fun _ => 0
  auth := fun _ => ⟨201, ⟨some "a", some "z"⟩⟩
  call := fun k => if k = 0 then ⟨401, 0⟩ else ⟨200, 9⟩
  msg := fun _ => none

/-- A run whose wrapped call answers 404 with a body carrying a message. -/
def envNotFound : Env Nat where
  parseDate := fun _ => 2000000
  creds := sampleCreds
  times := fun _ => 0
  auth := fun _ => ⟨201, ⟨some "a", some "z"⟩⟩
  call := fun _ => ⟨404, 3⟩
  msg := fun d => if d = 3 then some "not found" else none

/-- A run whose wrapped call answers 401 and whose retried call answers 500
with a message-less body. -/
def envRetry500 : Env Nat where
  parseDate := fun _ => 2000000
  creds := sampleCreds
  times := fun _ => 0
  auth := fun _ => ⟨201, ⟨some "a", some "z"⟩⟩
  call := fun k => if k = 0 then ⟨401, 0⟩ else ⟨500, 7⟩
  msg := fun _ => none

/-- A run whose authenticate endpoint hands out a token whose expiry parses
to a time far in the past. -/
def envStaleExpiry : Env Nat where
  parseDate := fun _ => 0
  creds := sampleCreds
  times := fun _ => 1000000000000
  auth := fun _ => ⟨201, ⟨some "abc", some "past"⟩⟩
  call := fun _ => ⟨200, 5⟩
  msg := fun _ => none

/-- A run whose authenticate endpoint answers 201 with an empty-string
access_token. -/
def envEmptyToken : Env Nat where
  parseDate := fun _ => 2000000
  creds := sampleCreds
  times := fun _ => 0
  auth := fun _ => ⟨201, ⟨some "", some "z"⟩⟩
  call := fun _ => ⟨200, 5⟩
  msg := fun _ => none

/-- A run whose authenticate endpoint answers 201 with a truthy
access_token but an empty-string expires_at. -/
def envEmptyExpiry : Env Nat where
  parseDate := fun _ => 2000000
  creds := sampleCreds
  times := fun _ => 0
  auth := fun _ => ⟨201, ⟨some "a", some ""⟩⟩
  call := fun _ => ⟨200, 5⟩
  msg := fun _ => none

/-- A run with a healthy endpoint and a clock inside the cached token's
validity window. -/
def envSteady : Env Nat where
  parseDate := fun _ => 2000000
  creds := sampleCreds
  times := fun _ => 0
  auth := fun _ => ⟨201, ⟨some "a", some "z"⟩⟩
  call := fun _ => ⟨200, 5⟩
  msg := fun _ => none

/-- A run of the openapi-generator client whose flows endpoint answers 401
three times and then succeeds, with a healthy authenticate endpoint. -/
def env2Flows : Env2 Nat where
  parseDate := fun _ => 1000000000
  times := fun _ => 0
  auth := fun _ => .ok ⟨"t", "x"⟩
  calls := fun k => if k < 3 then .error (.responseError 401 "Unauthorized" (.ok emptyErrBody)) else .ok 7

/-- A trivial environment for the openapi-generator client. -/
def env2Triv : Env2 Nat where
  parseDate := fun _ => 0
  times := fun _ => 0
  auth := fun _ => .error (.other "unused")
  calls := fun _ => .error (.other "unused")

/-- A thunk that throws a `ResponseError` whose body cannot be read. -/
def thunkReadFail : Thunk2 Nat := fun _ st rc =>
  (.error (.responseError 418 "teapot" (.error ())), st, rc)

/-- A thunk that throws a transport-level error that is not a
`ResponseError`. -/
def thunkOther : Thunk2 Nat := fun _ st rc =>
  (.error (.other "socket hang up"), st, rc)

/-! Helper lemmas. -/

/-- On a valid cache, `getAccessToken` is a pure cache hit. -/
theorem getAccessToken_valid {D : Type} (pd : String → Int) (c : Creds) (now : Int)
    (r : ApiResponse AuthData) (st : ClientState) (h : tokenIsValid st now = true) :
    getAccessToken (D := D) pd c now r st = ⟨.ok (st.token.getD ""), st, 0, []⟩ := by
  simp [getAccessToken, h]

/-- On an invalid cache, `getAccessToken` makes exactly one authenticate
call, whichever way that call turns out. -/
theorem getAccessToken_refresh_authCalls {D : Type} (pd : String → Int) (c : Creds)
    (now : Int) (r : ApiResponse AuthData) (st : ClientState)
    (h : tokenIsValid st now = false) :
    (getAccessToken (D := D) pd c now r st).authCalls = 1 := by
  simp only [getAccessToken, h, Bool.false_eq_true, if_false]
  split
  · rfl
  · split
    · rfl
    · rfl

/-- One public call with a valid cached token and a successful endpoint
response: the payload is returned, the state is untouched, no authenticate
call happens, the cached token is the attached header. -/
theorem withErrorHandling_cached_success {D : Type} (env : Env D) (t : String) (e : Int)
    (rc : RC) (ht : strTruthy (some t) = true)
    (hnow : env.times rc.attempts < e - bufferMs)
    (hst : (env.call rc.fns).status = 200 ∨ (env.call rc.fns).status = 201) :
    withErrorHandling env ⟨some t, some e⟩ rc =
      ⟨.ok (env.call rc.fns).data, ⟨some t, some e⟩,
        ⟨rc.attempts + 1, rc.auths, rc.fns + 1⟩, 0, [t]⟩ := by
  have hv : tokenIsValid ⟨some t, some e⟩ (env.times rc.attempts) = true := by
    simp [tokenIsValid, ht, hnow]
  simp [withErrorHandling, attemptRun, getAccessToken_valid _ _ _ _ _ hv, classify, hst]

/-- Repeated public calls inside the validity window with successful
endpoint responses: the state survives unchanged, the authenticate counter
never moves, and every result is a success. -/
theorem runMany_cached {D : Type} (env : Env D) (t : String) (e : Int)
    (ht : strTruthy (some t) = true) :
    ∀ (n : Nat) (rc : RC),
      (∀ k, k < n → env.times (rc.attempts + k) < e - bufferMs) →
      (∀ k, k < n → (env.call (rc.fns + k)).status = 200 ∨
        (env.call (rc.fns + k)).status = 201) →
      (runMany env n ⟨some t, some e⟩ rc).2.1 = ⟨some t, some e⟩ ∧
      (runMany env n ⟨some t, some e⟩ rc).2.2 = ⟨rc.attempts + n, rc.auths, rc.fns + n⟩ ∧
      (runMany env n ⟨some t, some e⟩ rc).1.all exceptIsOk = true := by
  intro n
  induction n with
  | zero => intro rc _ _; exact ⟨rfl, rfl, rfl⟩
  | succ n ih =>
      intro rc hnow hok
      have hstep := withErrorHandling_cached_success env t e rc ht
        (by simpa using hnow 0 (Nat.succ_pos n)) (by simpa using hok 0 (Nat.succ_pos n))
      have ih' := ih ⟨rc.attempts + 1, rc.auths, rc.fns + 1⟩
        (fun k hk => by
          have h1 : rc.attempts + 1 + k = rc.attempts + (k + 1) := by omega
          rw [h1]; exact hnow (k + 1) (by omega))
        (fun k hk => by
          have h1 : rc.fns + 1 + k = rc.fns + (k + 1) := by omega
          rw [h1]; exact hok (k + 1) (by omega))
      refine ⟨?_, ?_, ?_⟩
      · simpa [runMany, hstep] using ih'.1
      · have := ih'.2.1
        simp only [runMany, hstep]
        rw [this]
        have h1 : rc.attempts + 1 + n = rc.attempts + (n + 1) := by omega
        have h2 : rc.fns + 1 + n = rc.fns + (n + 1) := by omega
        simp [h1, h2]
      · simp [runMany, hstep, exceptIsOk, ih'.2.2]

/-- One attempt when the token manager hands back a token: the endpoint is
invoked once and its response unwrapped, with the token as the header. -/
theorem attemptRun_ok {D : Type} (env : Env D) (st : ClientState) (rc : RC)
    (tok : String) (st1 : ClientState) (ac : Nat) (ab : List Creds)
    (hg : getAccessToken (D := D) env.parseDate env.creds (env.times rc.attempts)
        (env.auth rc.auths) st = ⟨.ok tok, st1, ac, ab⟩) :
    attemptRun env st rc =
      ⟨classify env.msg (env.call rc.fns), st1,
        ⟨rc.attempts + 1, rc.auths + ac, rc.fns + 1⟩, [tok]⟩ := by
  simp [attemptRun, hg]

/-- One attempt when the token manager throws: the endpoint is not invoked
and no header is built. -/
theorem attemptRun_err {D : Type} (env : Env D) (st : ClientState) (rc : RC)
    (e : VouchsafeApiError D) (st1 : ClientState) (ac : Nat) (ab : List Creds)
    (hg : getAccessToken (D := D) env.parseDate env.creds (env.times rc.attempts)
        (env.auth rc.auths) st = ⟨.error e, st1, ac, ab⟩) :
    attemptRun env st rc =
      ⟨.error e, st1, ⟨rc.attempts + 1, rc.auths + ac, rc.fns⟩, []⟩ := by
  simp [attemptRun, hg]

/-- A successful first attempt is returned as is, with no invalidation. -/
theorem withErrorHandling_of_ok {D : Type} (env : Env D) (st : ClientState) (rc : RC)
    (d : D) (st1 : ClientState) (rc1 : RC) (hd : List String)
    (h : attemptRun env st rc = ⟨.ok d, st1, rc1, hd⟩) :
    withErrorHandling env st rc = ⟨.ok d, st1, rc1, 0, hd⟩ := by
  simp [withErrorHandling, h]

/-- A first attempt failing with statusCode 401 triggers the single
invalidate-and-retry: the outcome is that of one fresh attempt run from a
cleared cache. -/
theorem withErrorHandling_of_err401 {D : Type} (env : Env D) (st : ClientState) (rc : RC)
    (e : VouchsafeApiError D) (st1 : ClientState) (rc1 : RC) (hd : List String)
    (h : attemptRun env st rc = ⟨.error e, st1, rc1, hd⟩) (he : e.statusCode = 401) :
    withErrorHandling env st rc =
      ⟨(attemptRun env emptyState rc1).result, (attemptRun env emptyState rc1).state,
        (attemptRun env emptyState rc1).rc, 1, hd ++ (attemptRun env emptyState rc1).headers⟩ := by
  simp [withErrorHandling, h, he]

/-- A first attempt failing with any other statusCode is rethrown untouched,
with no invalidation. -/
theorem withErrorHandling_of_errOther {D : Type} (env : Env D) (st : ClientState) (rc : RC)
    (e : VouchsafeApiError D) (st1 : ClientState) (rc1 : RC) (hd : List String)
    (h : attemptRun env st rc = ⟨.error e, st1, rc1, hd⟩) (he : e.statusCode ≠ 401) :
    withErrorHandling env st rc = ⟨.error e, st1, rc1, 0, hd⟩ := by
  simp [withErrorHandling, h, he]

/-! Claim theorems. -/

/-- C3: for every executor state holding a cached token whose expiry lies
more than 5 minutes after the current time, `getAccessToken` returns the
cached token value unchanged, issues no authenticate network call and leaves
the cached token and expiry unmodified; and any number of repeated
successful calls within the validity window never re-triggers
authentication (the authenticate counter never moves). -/
theorem c3_cached_token_no_reauth {D : Type} (env : Env D) (t : String) (e : Int)
    (n : Nat) (rc : RC) (pd : String → Int) (c : Creds) (now : Int)
    (r : ApiResponse AuthData)
    (ht : strTruthy (some t) = true)
    (hnow1 : now < e - bufferMs)
    (hnow : ∀ k, k < n → env.times (rc.attempts + k) < e - bufferMs)
    (hok : ∀ k, k < n → (env.call (rc.fns + k)).status = 200 ∨
      (env.call (rc.fns + k)).status = 201) :
    getAccessToken (D := D) pd c now r ⟨some t, some e⟩ =
      ⟨.ok t, ⟨some t, some e⟩, 0, []⟩ ∧
    (runMany env n ⟨some t, some e⟩ rc).2.1 = ⟨some t, some e⟩ ∧
    (runMany env n ⟨some t, some e⟩ rc).2.2 = ⟨rc.attempts + n, rc.auths, rc.fns + n⟩ ∧
    (runMany env n ⟨some t, some e⟩ rc).1.all exceptIsOk = true := by
  have hv : tokenIsValid ⟨some t, some e⟩ now = true := by
    simp [tokenIsValid, ht, hnow1]
  refine ⟨?_, runMany_cached env t e ht n rc hnow hok⟩
  simpa using getAccessToken_valid (D := D) pd c now r ⟨some t, some e⟩ hv

/-- Witness for c3_cached_token_no_reauth at a concrete cached state, a
concrete clock and two successive successful calls. -/
theorem c3_cached_token_no_reauth_witness :
    getAccessToken (D := Nat) (fun _ => 2000000) sampleCreds 0
        ⟨201, ⟨some "a", some "z"⟩⟩ ⟨some "tok", some 1000000000⟩ =
      ⟨.ok "tok", ⟨some "tok", some 1000000000⟩, 0, []⟩ ∧
    (runMany envSteady 2 ⟨some "tok", some 1000000000⟩ ⟨0, 0, 0⟩).2.1 =
      ⟨some "tok", some 1000000000⟩ ∧
    (runMany envSteady 2 ⟨some "tok", some 1000000000⟩ ⟨0, 0, 0⟩).2.2 = ⟨2, 0, 2⟩ ∧
    (runMany envSteady 2 ⟨some "tok", some 1000000000⟩ ⟨0, 0, 0⟩).1.all exceptIsOk = true :=
  c3_cached_token_no_reauth envSteady "tok" 1000000000 2 ⟨0, 0, 0⟩
    (fun _ => 2000000) sampleCreds 0 ⟨201, ⟨some "a", some "z"⟩⟩
    (by decide) (by decide) (by decide) (by decide)

/-- C4: when a refresh is required (here: the cache guard fails, which
covers both an absent token and one expiring within the 5-minute buffer),
`getAccessToken` issues exactly one authenticate call carrying the stored
credentials and, on a 201 response with truthy `access_token` and
`expires_at`, stores both on the instance and returns the new token. -/
theorem c4_refresh_single_auth_call {D : Type} (pd : String → Int) (c : Creds)
    (now : Int) (a x : String) (st : ClientState)
    (hrefresh : tokenIsValid st now = false)
    (ha : strTruthy (some a) = true) (hx : strTruthy (some x) = true) :
    getAccessToken (D := D) pd c now ⟨201, ⟨some a, some x⟩⟩ st =
      ⟨.ok a, ⟨some a, some (pd x)⟩, 1, [c]⟩ := by
  simp [getAccessToken, hrefresh, ha, hx]

/-- Witness for c4_refresh_single_auth_call on a fresh client. -/
theorem c4_refresh_single_auth_call_witness :
    getAccessToken (D := Nat) (fun _ => 2000000) sampleCreds 0
        ⟨201, ⟨some "a", some "z"⟩⟩ emptyState =
      ⟨.ok "a", ⟨some "a", some 2000000⟩, 1, [sampleCreds]⟩ :=
  c4_refresh_single_auth_call (fun _ => 2000000) sampleCreds 0 "a" "z" emptyState
    (by decide) (by decide) (by decide)

/-- C5 (amended): when a refresh is required and the authenticate call
returns a non-201 status, `getAccessToken` fails with the authentication
error and caches no new token — the cache is left exactly as it was, so in
particular an empty cache stays empty.  (The original claim, that the cache
is empty after the failure, is refuted by c5_counterexample: a stale token
present before the failed refresh survives it.) -/
theorem c5_auth_failure_amended {D : Type} (pd : String → Int) (c : Creds)
    (now : Int) (r : ApiResponse AuthData) (st : ClientState)
    (hrefresh : tokenIsValid st now = false) (hs : r.status ≠ 201) :
    getAccessToken (D := D) pd c now r st =
      ⟨.error ⟨r.status, .auth r.data, "Authentication failed"⟩, st, 1, [c]⟩ := by
  simp [getAccessToken, hrefresh, hs]

/-- Witness for c5_auth_failure_amended on a fresh client whose authenticate
endpoint answers 500. -/
theorem c5_auth_failure_amended_witness :
    getAccessToken (D := Nat) (fun _ => 0) sampleCreds 0 ⟨500, ⟨none, none⟩⟩ emptyState =
      ⟨.error ⟨500, .auth ⟨none, none⟩, "Authentication failed"⟩, emptyState, 1, [sampleCreds]⟩ :=
  c5_auth_failure_amended (fun _ => 0) sampleCreds 0 ⟨500, ⟨none, none⟩⟩ emptyState
    (by decide) (by decide)

/-- Counterexample to C5 as stated: a client holding a stale token needs a
refresh; the authenticate call fails with 500; `getAccessToken` throws the
authentication error, yet the stale token is still cached afterwards — the
token cache is not empty after the failure. -/
theorem c5_counterexample :
    tokenIsValid ⟨some "old", some 0⟩ 1000000000 = false ∧
    (getAccessToken (D := Nat) (fun _ => 0) sampleCreds 1000000000
        ⟨500, ⟨none, none⟩⟩ ⟨some "old", some 0⟩).result =
      .error ⟨500, .auth ⟨none, none⟩, "Authentication failed"⟩ ∧
    (getAccessToken (D := Nat) (fun _ => 0) sampleCreds 1000000000
        ⟨500, ⟨none, none⟩⟩ ⟨some "old", some 0⟩).state.token = some "old" ∧
    ¬ (getAccessToken (D := Nat) (fun _ => 0) sampleCreds 1000000000
        ⟨500, ⟨none, none⟩⟩ ⟨some "old", some 0⟩).state.token = none := by
  refine ⟨by decide, rfl, rfl, by decide⟩

/-- C6: when a refresh is required and the authenticate call answers 201
but omits `access_token` or omits `expires_at`, `getAccessToken` fails with
the authentication error for a missing token or expiry and caches nothing —
the state is unchanged, so no partial token is stored. -/
theorem c6_missing_fields_error {D : Type} (pd : String → Int) (c : Creds)
    (now : Int) (r : ApiResponse AuthData) (st : ClientState)
    (hrefresh : tokenIsValid st now = false) (hs : r.status = 201)
    (homit : r.data.access_token = none ∨ r.data.expires_at = none) :
    getAccessToken (D := D) pd c now r st =
      ⟨.error ⟨201, .auth r.data, "Authentication response missing token or expiry"⟩,
        st, 1, [c]⟩ := by
  rcases homit with h | h <;> simp [getAccessToken, hrefresh, hs, h, strTruthy]

/-- Witness for c6_missing_fields_error: a 201 response with no
access_token field. -/
theorem c6_missing_fields_error_witness :
    getAccessToken (D := Nat) (fun _ => 0) sampleCreds 0 ⟨201, ⟨none, some "z"⟩⟩ emptyState =
      ⟨.error ⟨201, .auth ⟨none, some "z"⟩, "Authentication response missing token or expiry"⟩,
        emptyState, 1, [sampleCreds]⟩ :=
  c6_missing_fields_error (fun _ => 0) sampleCreds 0 ⟨201, ⟨none, some "z"⟩⟩ emptyState
    (by decide) (by decide) (Or.inl (by decide))

/-- C10: when a refresh is required and the authenticate call answers 201
with a falsy `access_token` or a falsy `expires_at` (for example the empty
string), the falsy field is treated as missing: the executor surfaces the
authentication error whose `statusCode` is 201 — the success status — the
401-retry branch is not taken (no invalidation), and the wrapped call is
never invoked. -/
theorem c10_falsy_token_statusCode201 {D : Type} (env : Env D) (st : ClientState)
    (rc : RC) (d : AuthData)
    (hrefresh : tokenIsValid st (env.times rc.attempts) = false)
    (hauth : env.auth rc.auths = ⟨201, d⟩)
    (hfalsy : strTruthy d.access_token = false ∨ strTruthy d.expires_at = false) :
    withErrorHandling env st rc =
      ⟨.error ⟨201, .auth d, "Authentication response missing token or expiry"⟩,
        st, ⟨rc.attempts + 1, rc.auths + 1, rc.fns⟩, 0, []⟩ := by
  have hga : getAccessToken (D := D) env.parseDate env.creds (env.times rc.attempts)
      (env.auth rc.auths) st =
      ⟨.error ⟨201, .auth d, "Authentication response missing token or expiry"⟩,
        st, 1, [env.creds]⟩ := by
    rw [hauth]
    rcases hfalsy with h | h <;> simp [getAccessToken, hrefresh, h]
  simp [withErrorHandling, attemptRun, hga]

/-- C1 (amended): on a wrapped call whose first invocation answers 401, the
executor performs exactly one token invalidation (clearing cached token and
expiry) and exactly one re-acquisition authenticate call.  When the
re-acquisition succeeds, exactly one retried invocation follows and the
caller receives its unwrapped outcome — the retried success payload on
200/201, otherwise the retry's error, not the original 401.  When the
re-acquisition fails, the wrapped call is not invoked again and the caller
receives the re-acquisition's error.  In every case no second retry occurs:
the total attempt count is two.  (The original claim's unconditional "one
retried invocation" is refuted by c1_counterexample, where the
re-acquisition fails and the wrapped call is never retried.) -/
theorem c1_retry_once_amended {D : Type} (env : Env D) (st : ClientState) (rc : RC)
    (tok : String) (st1 : ClientState) (ac : Nat) (ab : List Creds)
    (hg : getAccessToken (D := D) env.parseDate env.creds (env.times rc.attempts)
        (env.auth rc.auths) st = ⟨.ok tok, st1, ac, ab⟩)
    (h401 : (env.call rc.fns).status = 401) :
    (withErrorHandling env st rc).invalidations = 1 ∧
    (withErrorHandling env st rc).rc.attempts = rc.attempts + 2 ∧
    (withErrorHandling env st rc).rc.auths = rc.auths + ac + 1 ∧
    (match (getAccessToken (D := D) env.parseDate env.creds (env.times (rc.attempts + 1))
        (env.auth (rc.auths + ac)) emptyState).result with
     | .error e2 =>
         (withErrorHandling env st rc).result = .error e2 ∧
         (withErrorHandling env st rc).rc.fns = rc.fns + 1
     | .ok tok2 =>
         (withErrorHandling env st rc).result = classify env.msg (env.call (rc.fns + 1)) ∧
         (withErrorHandling env st rc).rc.fns = rc.fns + 2 ∧
         (withErrorHandling env st rc).headers = [tok, tok2]) := by
  have ha1 := attemptRun_ok env st rc tok st1 ac ab hg
  have hcl : classify env.msg (env.call rc.fns) =
      .error ⟨(env.call rc.fns).status, .call (env.call rc.fns).data,
        (env.msg (env.call rc.fns).data).getD
          ("Request failed with status " ++ toString (env.call rc.fns).status)⟩ := by
    simp [classify, h401]
  rw [hcl] at ha1
  have hwe := withErrorHandling_of_err401 env st rc _ st1
    ⟨rc.attempts + 1, rc.auths + ac, rc.fns + 1⟩ [tok] ha1 h401
  have hval : tokenIsValid emptyState (env.times (rc.attempts + 1)) = false := rfl
  rcases hg2 : getAccessToken (D := D) env.parseDate env.creds (env.times (rc.attempts + 1))
      (env.auth (rc.auths + ac)) emptyState with ⟨r2, s2, a2c, b2⟩
  have ha2c : a2c = 1 := by
    have := getAccessToken_refresh_authCalls (D := D) env.parseDate env.creds
      (env.times (rc.attempts + 1)) (env.auth (rc.auths + ac)) emptyState hval
    rw [hg2] at this
    exact this
  subst ha2c
  cases r2 with
  | error e2 =>
      have ha2 := attemptRun_err env emptyState ⟨rc.attempts + 1, rc.auths + ac, rc.fns + 1⟩
        e2 s2 1 b2 hg2
      rw [hwe, ha2]
      exact ⟨rfl, rfl, rfl, rfl, rfl⟩
  | ok tok2 =>
      have ha2 := attemptRun_ok env emptyState ⟨rc.attempts + 1, rc.auths + ac, rc.fns + 1⟩
        tok2 s2 1 b2 hg2
      rw [hwe, ha2]
      exact ⟨rfl, rfl, rfl, rfl, rfl, rfl⟩

/-- Witness for c1_retry_once_amended: a fresh client, first call answers
401, re-acquisition succeeds, retried call answers 200 with payload 9. -/
theorem c1_retry_once_amended_witness :
    (withErrorHandling envRetrySuccess emptyState ⟨0, 0, 0⟩).invalidations = 1 ∧
    (withErrorHandling envRetrySuccess emptyState ⟨0, 0, 0⟩).rc.attempts = 2 ∧
    (withErrorHandling envRetrySuccess emptyState ⟨0, 0, 0⟩).rc.auths = 2 ∧
    ((withErrorHandling envRetrySuccess emptyState ⟨0, 0, 0⟩).result = .ok 9 ∧
      (withErrorHandling envRetrySuccess emptyState ⟨0, 0, 0⟩).rc.fns = 2 ∧
      (withErrorHandling envRetrySuccess emptyState ⟨0, 0, 0⟩).headers = ["a", "a"]) :=
  c1_retry_once_amended envRetrySuccess emptyState ⟨0, 0, 0⟩ "a"
    ⟨some "a", some 2000000⟩ 1 [sampleCreds] (by decide) (by decide)

/-- Counterexample to C1 as stated: the first invocation answers 401, the
executor invalidates and attempts re-acquisition, but the authenticate call
answers 500 — so the wrapped call is invoked exactly once in total (no
retried invocation happens, against the claimed "exactly one retried
invocation") and the caller receives the authentication error. -/
theorem c1_counterexample :
    (envRetryAuthFail.call 0).status = 401 ∧
    withErrorHandling envRetryAuthFail ⟨some "tok", some 1000000000⟩ ⟨0, 0, 0⟩ =
      ⟨.error ⟨500, .auth ⟨none, none⟩, "Authentication failed"⟩, emptyState,
        ⟨2, 1, 1⟩, 1, ["tok"]⟩ :=
  ⟨rfl, rfl⟩

/-- C2 (evidence of the code bug): in the openapi-generator client,
`listFlows` and `getFlow` wrap `withErrorHandling` around an already
wrapped call, unlike every other endpoint.  On a run where the flows
endpoint answers 401 three times and then succeeds, the doubly wrapped
executor performs four underlying invocations and four authenticate calls
and still returns success, whereas a singly wrapped endpoint on the same
wire trace performs exactly two invocations and surfaces the second 401 —
so the doubly wrapped endpoints do not implement the claimed
single-retry-on-401 policy. -/
theorem c2_double_wrap_bug :
    listFlows2 env2Flows emptyState ⟨0, 0⟩ =
      (.ok 7, ⟨some "t", some 1000000000⟩, ⟨4, 4⟩) ∧
    getFlow2 env2Flows emptyState ⟨0, 0⟩ =
      (.ok 7, ⟨some "t", some 1000000000⟩, ⟨4, 4⟩) ∧
    getVerification2 env2Flows emptyState ⟨0, 0⟩ =
      (.error (.responseError 401 "Unauthorized" (.ok emptyErrBody)),
        ⟨some "t", some 1000000000⟩, ⟨2, 2⟩) :=
  ⟨rfl, rfl, rfl⟩

/-- C7: a wrapped call returning a non-success status other than 401 is
never retried and the caller receives the typed error carrying the original
status code, the raw response body, and a message equal to the body's
`message` field when present, else "Request failed with status N".  The
first conjunct covers such a failure on the first attempt (no invalidation,
exactly one invocation); the second covers it on the retry following a 401
(exactly two invocations in total, no third). -/
theorem c7_non401_no_retry {D : Type}
    (env envb : Env D) (st stb : ClientState) (rc rcb : RC)
    (tok tokb tokb2 : String) (st1 stb1 stb2 : ClientState) (ac acb : Nat)
    (ab abb abb2 : List Creds)
    (hg : getAccessToken (D := D) env.parseDate env.creds (env.times rc.attempts)
        (env.auth rc.auths) st = ⟨.ok tok, st1, ac, ab⟩)
    (hs200 : (env.call rc.fns).status ≠ 200)
    (hs201 : (env.call rc.fns).status ≠ 201)
    (hs401 : (env.call rc.fns).status ≠ 401)
    (hgb : getAccessToken (D := D) envb.parseDate envb.creds (envb.times rcb.attempts)
        (envb.auth rcb.auths) stb = ⟨.ok tokb, stb1, acb, abb⟩)
    (h401b : (envb.call rcb.fns).status = 401)
    (hg2b : getAccessToken (D := D) envb.parseDate envb.creds
        (envb.times (rcb.attempts + 1)) (envb.auth (rcb.auths + acb)) emptyState =
      ⟨.ok tokb2, stb2, 1, abb2⟩)
    (hr200 : (envb.call (rcb.fns + 1)).status ≠ 200)
    (hr201 : (envb.call (rcb.fns + 1)).status ≠ 201)
    (_hr401 : (envb.call (rcb.fns + 1)).status ≠ 401) :
    withErrorHandling env st rc =
      ⟨.error ⟨(env.call rc.fns).status, .call (env.call rc.fns).data,
          (env.msg (env.call rc.fns).data).getD
            ("Request failed with status " ++ toString (env.call rc.fns).status)⟩,
        st1, ⟨rc.attempts + 1, rc.auths + ac, rc.fns + 1⟩, 0, [tok]⟩ ∧
    withErrorHandling envb stb rcb =
      ⟨.error ⟨(envb.call (rcb.fns + 1)).status, .call (envb.call (rcb.fns + 1)).data,
          (envb.msg (envb.call (rcb.fns + 1)).data).getD
            ("Request failed with status " ++ toString (envb.call (rcb.fns + 1)).status)⟩,
        stb2, ⟨rcb.attempts + 2, rcb.auths + acb + 1, rcb.fns + 2⟩, 1, [tokb, tokb2]⟩ := by
  constructor
  · have ha1 := attemptRun_ok env st rc tok st1 ac ab hg
    have hcl : classify env.msg (env.call rc.fns) =
        .error ⟨(env.call rc.fns).status, .call (env.call rc.fns).data,
          (env.msg (env.call rc.fns).data).getD
            ("Request failed with status " ++ toString (env.call rc.fns).status)⟩ := by
      simp [classify, hs200, hs201]
    rw [hcl] at ha1
    exact withErrorHandling_of_errOther env st rc _ st1
      ⟨rc.attempts + 1, rc.auths + ac, rc.fns + 1⟩ [tok] ha1 hs401
  · have ha1 := attemptRun_ok envb stb rcb tokb stb1 acb abb hgb
    have hcl : classify envb.msg (envb.call rcb.fns) =
        .error ⟨(envb.call rcb.fns).status, .call (envb.call rcb.fns).data,
          (envb.msg (envb.call rcb.fns).data).getD
            ("Request failed with status " ++ toString (envb.call rcb.fns).status)⟩ := by
      simp [classify, h401b]
    rw [hcl] at ha1
    have hwe := withErrorHandling_of_err401 envb stb rcb _ stb1
      ⟨rcb.attempts + 1, rcb.auths + acb, rcb.fns + 1⟩ [tokb] ha1 h401b
    have ha2 := attemptRun_ok envb emptyState ⟨rcb.attempts + 1, rcb.auths + acb, rcb.fns + 1⟩
      tokb2 stb2 1 abb2 hg2b
    have hcl2 : classify envb.msg (envb.call (rcb.fns + 1)) =
        .error ⟨(envb.call (rcb.fns + 1)).status, .call (envb.call (rcb.fns + 1)).data,
          (envb.msg (envb.call (rcb.fns + 1)).data).getD
            ("Request failed with status " ++ toString (envb.call (rcb.fns + 1)).status)⟩ := by
      simp [classify, hr200, hr201]
    rw [hcl2] at ha2
    rw [hwe, ha2]
    rfl

/-- Witness for c7_non401_no_retry: one run whose wrapped call answers 404
with a body whose message is "not found" on the first attempt, and one run
whose wrapped call answers 401 and whose retried call answers 500 with a
message-less body. -/
theorem c7_non401_no_retry_witness :
    withErrorHandling envNotFound emptyState ⟨0, 0, 0⟩ =
      ⟨.error ⟨404, .call 3, "not found"⟩, ⟨some "a", some 2000000⟩, ⟨1, 1, 1⟩, 0, ["a"]⟩ ∧
    withErrorHandling envRetry500 emptyState ⟨0, 0, 0⟩ =
      ⟨.error ⟨500, .call 7, "Request failed with status 500"⟩,
        ⟨some "a", some 2000000⟩, ⟨2, 2, 2⟩, 1, ["a", "a"]⟩ :=
  c7_non401_no_retry envNotFound envRetry500 emptyState emptyState ⟨0, 0, 0⟩ ⟨0, 0, 0⟩
    "a" "a" "a" ⟨some "a", some 2000000⟩ ⟨some "a", some 2000000⟩ ⟨some "a", some 2000000⟩
    1 1 [sampleCreds] [sampleCreds] [sampleCreds]
    (by decide) (by decide) (by decide) (by decide)
    (by decide) (by decide) (by decide) (by decide) (by decide) (by decide)

/-- C8 (amended): the executor holds at most one token per instance (so any
two tokens read from the cache coincide); a cached token is served without
any authenticate call exactly when `now < expiresAt - 5min` holds
(`tokenIsValid`), the cache then being returned unchanged; when the guard
fails the token is treated as absent and exactly one authenticate call is
made before any header is built; and every Authorization header carries
precisely the token `getAccessToken` returned at the moment it was ensured.
(The original claim's final consequence — that the ensured token always
satisfies the validity condition at that moment — is refuted by
c8_counterexample, where a freshly acquired token is already outside the
window when it is attached.) -/
theorem c8_token_validity_amended {D : Type} (env : Env D) (st stv : ClientState)
    (rc : RC) (pd : String → Int) (c : Creds) (now1 now2 : Int)
    (r : ApiResponse AuthData) (u v tok : String)
    (hu : stv.token = some u) (hv : stv.token = some v)
    (hval : tokenIsValid stv now1 = true)
    (hinv : tokenIsValid st now2 = false)
    (hmem : tok ∈ (attemptRun env st rc).headers) :
    u = v ∧
    getAccessToken (D := D) pd c now1 r stv = ⟨.ok (stv.token.getD ""), stv, 0, []⟩ ∧
    (getAccessToken (D := D) pd c now2 r st).authCalls = 1 ∧
    (getAccessToken (D := D) env.parseDate env.creds (env.times rc.attempts)
        (env.auth rc.auths) st).result = .ok tok := by
  refine ⟨by rw [hu] at hv; exact Option.some.inj hv,
    getAccessToken_valid pd c now1 r stv hval,
    getAccessToken_refresh_authCalls pd c now2 r st hinv, ?_⟩
  rcases hG : getAccessToken (D := D) env.parseDate env.creds (env.times rc.attempts)
      (env.auth rc.auths) st with ⟨gr, gs, ga, gb⟩
  cases gr with
  | error e =>
      have ha := attemptRun_err env st rc e gs ga gb hG
      rw [ha] at hmem
      simp at hmem
  | ok tok0 =>
      have ha := attemptRun_ok env st rc tok0 gs ga gb hG
      rw [ha] at hmem
      simp at hmem
      simp [hmem]

/-- Witness for c8_token_validity_amended: a valid cached state read at time
0, an empty cache forcing a refresh, and the header attached by a concrete
attempt. -/
theorem c8_token_validity_amended_witness :
    "tok" = "tok" ∧
    getAccessToken (D := Nat) (fun _ => 0) sampleCreds 0 ⟨201, ⟨some "a", some "z"⟩⟩
        ⟨some "tok", some 1000000000⟩ =
      ⟨.ok (Option.getD (some "tok") ""), ⟨some "tok", some 1000000000⟩, 0, []⟩ ∧
    (getAccessToken (D := Nat) (fun _ => 0) sampleCreds 0 ⟨201, ⟨some "a", some "z"⟩⟩
        emptyState).authCalls = 1 ∧
    (getAccessToken (D := Nat) envStaleExpiry.parseDate envStaleExpiry.creds
        (envStaleExpiry.times 0) (envStaleExpiry.auth 0) emptyState).result = .ok "abc" :=
  c8_token_validity_amended envStaleExpiry emptyState ⟨some "tok", some 1000000000⟩
    ⟨0, 0, 0⟩ (fun _ => 0) sampleCreds 0 0 ⟨201, ⟨some "a", some "z"⟩⟩
    "tok" "tok" "abc" (by decide) (by decide) (by decide) (by decide) (by decide)

/-- Counterexample to C8 as stated: on a fresh client whose authenticate
endpoint hands out a token whose expiry parses to epoch 0 while the clock
reads 10^12, the attempt attaches the header token "abc" and the request
succeeds, yet the stored token fails the validity condition
`now < expiresAt - 5min` at the very moment it was ensured — so not every
Authorization header carries a token valid under that condition. -/
theorem c8_counterexample :
    (attemptRun envStaleExpiry emptyState ⟨0, 0, 0⟩).headers = ["abc"] ∧
    (attemptRun envStaleExpiry emptyState ⟨0, 0, 0⟩).result = .ok 5 ∧
    (attemptRun envStaleExpiry emptyState ⟨0, 0, 0⟩).state = ⟨some "abc", some 0⟩ ∧
    tokenIsValid ⟨some "abc", some 0⟩ (envStaleExpiry.times 0) = false :=
  ⟨rfl, rfl, rfl, by decide⟩

/-- C9: in the openapi-generator client's executor, when a non-401 error
response's body must be read to build the typed error, a body-read failure
does not propagate: the `VouchsafeApiError` is built with the empty object
substituted for the body (its message falling back to the statusText);
while a thrown error that is not a fetch `ResponseError` propagates to the
caller untouched. -/
theorem c9_body_read_tolerated {D : Type}
    (thunkA thunkB : Thunk2 D) (env envb : Env2 D) (st st1 stb stb1 : ClientState)
    (rc rc1 rcb rcb1 : RC2) (status : Nat) (stext tag : String)
    (hA : thunkA env st rc = (.error (.responseError status stext (.error ())), st1, rc1))
    (hs : status ≠ 401)
    (hB : thunkB envb stb rcb = (.error (.other tag), stb1, rcb1)) :
    withErrorHandling2 thunkA env st rc =
      (.error (.api status emptyErrBody stext), st1, rc1) ∧
    withErrorHandling2 thunkB envb stb rcb = (.error (.other tag), stb1, rcb1) := by
  constructor
  · simp [withErrorHandling2, hA, hs, emptyErrBody]
  · simp [withErrorHandling2, hB]

/-- Witness for c9_body_read_tolerated: a thunk throwing a 418
`ResponseError` whose body read fails, and a thunk throwing a plain
transport error. -/
theorem c9_body_read_tolerated_witness :
    withErrorHandling2 thunkReadFail env2Triv emptyState ⟨0, 0⟩ =
      (.error (.api 418 emptyErrBody "teapot"), emptyState, ⟨0, 0⟩) ∧
    withErrorHandling2 thunkOther env2Triv emptyState ⟨0, 0⟩ =
      (.error (.other "socket hang up"), emptyState, ⟨0, 0⟩) :=
  c9_body_read_tolerated thunkReadFail thunkOther env2Triv env2Triv
    emptyState emptyState emptyState emptyState ⟨0, 0⟩ ⟨0, 0⟩ ⟨0, 0⟩ ⟨0, 0⟩
    418 "teapot" "socket hang up" rfl (by decide) rfl

/-- Witness for c10_falsy_token_statusCode201 on a fresh client, covering
both disjuncts: an empty-string access_token with a truthy expires_at, and
a truthy access_token with an empty-string expires_at. -/
theorem c10_falsy_token_statusCode201_witness :
    withErrorHandling envEmptyToken emptyState ⟨0, 0, 0⟩ =
      ⟨.error ⟨201, .auth ⟨some "", some "z"⟩, "Authentication response missing token or expiry"⟩,
        emptyState, ⟨1, 1, 0⟩, 0, []⟩ ∧
    withErrorHandling envEmptyExpiry emptyState ⟨0, 0, 0⟩ =
      ⟨.error ⟨201, .auth ⟨some "a", some ""⟩, "Authentication response missing token or expiry"⟩,
        emptyState, ⟨1, 1, 0⟩, 0, []⟩ :=
  ⟨c10_falsy_token_statusCode201 envEmptyToken emptyState ⟨0, 0, 0⟩ ⟨some "", some "z"⟩
      (by decide) (by decide) (Or.inl (by decide)),
    c10_falsy_token_statusCode201 envEmptyExpiry emptyState ⟨0, 0, 0⟩ ⟨some "a", some ""⟩
      (by decide) (by decide) (Or.inr (by decide))⟩

end Vouchsafe
